import Mathlib

/-!
Shallow embedding of the `gridmanager` package (the core of
josephawallace/ninetyfive): a stateful RSI/RSX grid-crossing signal engine.

Go `float64` values are modelled as `ℚ`; every arithmetic operation the code
performs (+, −, ·, /, abs, comparisons, clamping) is exact here, and every
branch condition of the source is reproduced verbatim.  Go `int` is modelled
as `ℤ`.  Division by zero in `ℚ` yields 0 (Go would yield ±Inf); all guarded
divisions of the source are reproduced with their guards, so this difference
is only visible on states the source itself never divides in.

The Go struct `GridManager` carries a logger (`log logger.Logger`) which the
code only ever calls for diagnostics and never reads numeric state from.  We
model the numeric fields as `GridCore` and the full struct as `GridManager`
(core + an opaque logger handle), so that logger irrelevance is a statement
and not an accident of the model.
-/

/-- `common.Signal` from internal/common: the three discrete signals. -/
inductive Signal where
  | Buy
  | Sell
  | DoNothing
deriving DecidableEq, Repr

namespace NinetyFive

/-- `MarketDirection` constants (part_005 lines 13-17). -/
def DirUp : Int := 1
def DirNeutral : Int := 0
def DirDown : Int := -1

/-- `RsiType` constants (part_005 lines 20-23). -/
def RsiTypeClassic : Int := 0
def RsiTypeRSX : Int := 1

/-- The numeric fields of Go's `GridManager` struct (part_005 lines 26-61),
in source order; the logger is kept outside, in `GridManager` below.
`f90u` embeds the Go field `f90_`. -/
structure GridCore where
  RsiLength : Int
  NumberOfGrids : Int
  MarketDirection : Int
  NoTradeZonePips : Int
  AggressionLevel : Int
  CurrentRsiType : Int
  lastRsiValue : ℚ
  currentRsi : ℚ
  lastSignal : ℚ
  lastSignalIndex : Int
  signalLine : ℚ
  avgGain : ℚ
  avgLoss : ℚ
  prevRawPrice : ℚ
  f8 : ℚ
  f10 : ℚ
  f28 : ℚ
  f30 : ℚ
  f38 : ℚ
  f40 : ℚ
  f48 : ℚ
  f50 : ℚ
  f58 : ℚ
  f60 : ℚ
  f68 : ℚ
  f70 : ℚ
  f78 : ℚ
  f80 : ℚ
  f88 : ℚ
  f90 : ℚ
  f90u : ℚ
  f0 : ℚ
  gridLines : List ℚ
  buy : Bool
  sell : Bool

/-- The full Go struct: numeric core plus the stored logger, modelled as an
opaque handle (the source only emits diagnostics through it). -/
structure GridManager where
  core : GridCore
  log : Nat

/-- `parseDirection` (lines 98-107). -/
def parseDirection (dir : String) : Int :=
  if dir = "up" then DirUp
  else if dir = "down" then DirDown
  else DirNeutral

/-- `parseNoTradeZone` (lines 110-123). -/
def parseNoTradeZone (nt : String) : Int :=
  if nt = "45-55" then 5
  else if nt = "40-60" then 10
  else if nt = "35-65" then 15
  else if nt = "30-70" then 20
  else 0

/-- `parseAggression` (lines 126-135). -/
def parseAggression (agg : String) : Int :=
  if agg = "med" then 1
  else if agg = "high" then 2
  else 0

/-- `parseRsiType` (lines 138-143). -/
def parseRsiType (t : String) : Int :=
  if t = "rsx" then RsiTypeRSX else RsiTypeClassic

/-- `clamp` (lines 455-463). -/
def clamp (v mn mx : ℚ) : ℚ :=
  if v < mn then mn else if v > mx then mx else v

/-- `initGridLines` (lines 146-159), as a function of `NumberOfGrids`:
a zero-filled slice of that length, filled with `step·i` where
`step = 100/(n−1)`, then index 0 overridden to 1 and the last index to 99.
(The `n < 2` branch writes 50 at index 0 and returns.) -/
def initGridLines (n : Int) : List ℚ :=
  let base : List ℚ := List.replicate n.toNat 0
  if n < 2 then base.set 0 50
  else
    let step : ℚ := 100 / ((n : ℚ) - 1)
    let filled : List ℚ := List.ofFn (fun i : Fin n.toNat => step * (i : ℚ))
    (filled.set 0 1).set (n.toNat - 1) 99

/-- `NewGridManager` (lines 64-95).  Fields not assigned in the constructor
keep Go's zero values. -/
def NewGridManager (rsiLength numberOfGrids : Int)
    (direction ntZone aggLevel rsiType : String) (log : Nat) : GridManager :=
  let n : Int := numberOfGrids + 1
  { core :=
      { RsiLength := rsiLength
        NumberOfGrids := n
        MarketDirection := parseDirection direction
        NoTradeZonePips := parseNoTradeZone ntZone
        AggressionLevel := parseAggression aggLevel
        CurrentRsiType := parseRsiType rsiType
        lastRsiValue := 0
        currentRsi := 0
        lastSignal := 0
        lastSignalIndex := 0
        signalLine := 50
        avgGain := 0
        avgLoss := 0
        prevRawPrice := 0
        f8 := 0, f10 := 0, f28 := 0, f30 := 0, f38 := 0, f40 := 0
        f48 := 0, f50 := 0, f58 := 0, f60 := 0, f68 := 0, f70 := 0
        f78 := 0, f80 := 0, f88 := 0, f90 := 0, f90u := 0, f0 := 0
        gridLines := initGridLines n
        buy := false
        sell := false }
    log := log }

/-- `getGridValue` (lines 162-167): bounds-checked ladder lookup, 0 when out
of range. -/
def getGridValue (c : GridCore) (idx : Int) : ℚ :=
  if idx < 0 ∨ (c.gridLines.length : Int) ≤ idx then 0
  else c.gridLines.getD idx.toNat 0

/-- `computeRSI` (lines 338-370): Wilder-style smoothing; returns the
oscillator value together with the mutated state. -/
def computeRSI (c : GridCore) (price : ℚ) : ℚ × GridCore :=
  if c.prevRawPrice = 0 then (50, { c with prevRawPrice := price })
  else
    let delta : ℚ := price - c.prevRawPrice
    let c := { c with prevRawPrice := price }
    let gain : ℚ := if delta > 0 then delta else 0
    let loss : ℚ := if delta > 0 then 0 else -delta
    let c :=
      if c.avgGain = 0 ∧ c.avgLoss = 0 then
        { c with avgGain := gain, avgLoss := loss }
      else
        let alpha : ℚ := 1 / (c.RsiLength : ℚ)
        { c with avgGain := (1 - alpha) * c.avgGain + alpha * gain
                 avgLoss := (1 - alpha) * c.avgLoss + alpha * loss }
    if c.avgLoss = 0 then (100, c)
    else
      let rs : ℚ := c.avgGain / c.avgLoss
      (clamp (100 - 100 / (1 + rs)) 0 100, c)

/-- The warm-up threshold RSX seeds into `f88`: `period − 1`, floored at 5
(lines 379-382 and the identical re-seed at lines 428-433). -/
def rsxThreshold (rsiLength : Int) : ℚ :=
  let t : ℚ := (rsiLength : ℚ) - 1
  if t < 5 then 5 else t

/-- Intermediate quantities of one RSX cascade step (lines 386-415): the
updated filter-pair accumulators and the `v…` combinations. -/
structure RsxVals where
  f8 : ℚ
  f28 : ℚ
  f30 : ℚ
  f38 : ℚ
  f40 : ℚ
  f48 : ℚ
  f50 : ℚ
  f58 : ℚ
  f60 : ℚ
  f68 : ℚ
  f70 : ℚ
  f78 : ℚ
  f80 : ℚ
  v8 : ℚ
  vC : ℚ
  v10 : ℚ
  v14 : ℚ
  v18 : ℚ
  v1C : ℚ
  v20 : ℚ

/-- The six-stage filter cascade of `computeRSX` (lines 386-415), computed
from the pre-call state and the new price. -/
def computeRSXvals (c : GridCore) (price : ℚ) : RsxVals :=
  let f8 : ℚ := 100 * price
  let v8 : ℚ := f8 - c.f8
  let f18 : ℚ := 3 / ((c.RsiLength : ℚ) + 2)
  let f20 : ℚ := 1 - f18
  let f28 := f20 * c.f28 + f18 * v8
  let f30 := f18 * f28 + f20 * c.f30
  let vC := (3/2) * f28 - (1/2) * f30
  let f38 := f20 * c.f38 + f18 * vC
  let f40 := f18 * f38 + f20 * c.f40
  let v10 := (3/2) * f38 - (1/2) * f40
  let f48 := f20 * c.f48 + f18 * v10
  let f50 := f18 * f48 + f20 * c.f50
  let v14 := (3/2) * f48 - (1/2) * f50
  let f58 := f20 * c.f58 + f18 * |v8|
  let f60 := f18 * f58 + f20 * c.f60
  let v18 := (3/2) * f58 - (1/2) * f60
  let f68 := f20 * c.f68 + f18 * v18
  let f70 := f18 * f68 + f20 * c.f70
  let v1C := (3/2) * f68 - (1/2) * f70
  let f78 := f20 * c.f78 + f18 * v1C
  let f80 := f18 * f78 + f20 * c.f80
  let v20 := (3/2) * f78 - (1/2) * f80
  { f8 := f8, f28 := f28, f30 := f30, f38 := f38, f40 := f40, f48 := f48
    f50 := f50, f58 := f58, f60 := f60, f68 := f68, f70 := f70, f78 := f78
    f80 := f80, v8 := v8, vC := vC, v10 := v10, v14 := v14, v18 := v18
    v1C := v1C, v20 := v20 }

/-- The warm-up counter update (Go's `f90_`, lines 418-426): restart at 1,
saturate at `f88 + 1` once the threshold is reached, else advance by 1. -/
def rsxF90u (c : GridCore) : ℚ :=
  if c.f90u = 0 then 1
  else if c.f88 ≤ c.f90u then c.f88 + 1
  else c.f90u + 1

/-- The `f88` re-seed (lines 428-433): replaced by the threshold only when
it is still 0. -/
def rsxF88 (c : GridCore) : ℚ :=
  if c.f88 = 0 then rsxThreshold c.RsiLength else c.f88

/-- `f0` (lines 435-439): 1 while warming up on a changing price. -/
def rsxF0 (c : GridCore) (price : ℚ) : ℚ :=
  if rsxF88 c ≥ rsxF90u c ∧ (computeRSXvals c price).f8 ≠ c.f8 then 1 else 0

/-- `f90` (lines 441-445). -/
def rsxF90 (c : GridCore) (price : ℚ) : ℚ :=
  if rsxF88 c = rsxF90u c ∧ rsxF0 c price = 0 then 0 else rsxF90u c

/-- `computeRSX` (lines 373-452).  First call (sentinel `f8 = 0 ∧ f10 = 0`)
seeds and returns 50; afterwards the cascade runs, the warm-up counter
`f90_` (here `f90u`) advances, and a non-neutral value needs
`f88 < f90 ∧ v20 > 0`. -/
def computeRSX (c : GridCore) (price : ℚ) : ℚ × GridCore :=
  if c.f8 = 0 ∧ c.f10 = 0 then
    let f8 : ℚ := 100 * price
    (50, { c with f8 := f8, f10 := f8, f90u := 1
                  f88 := rsxThreshold c.RsiLength })
  else
    let r := computeRSXvals c price
    let rsxVal : ℚ :=
      if rsxF88 c < rsxF90 c price ∧ r.v20 > 0 then
        (r.v14 / r.v20 + 1) * 50
      else 50
    (clamp rsxVal 0 100,
      { c with f8 := r.f8, f28 := r.f28, f30 := r.f30, f38 := r.f38
               f40 := r.f40, f48 := r.f48, f50 := r.f50, f58 := r.f58
               f60 := r.f60, f68 := r.f68, f70 := r.f70, f78 := r.f78
               f80 := r.f80, f90u := rsxF90u c, f88 := rsxF88 c
               f0 := rsxF0 c price, f90 := rsxF90 c price })

/-- `getBuyLineIndex` (lines 243-258): one pass over ladder indices
`0 … NumberOfGrids−1`, recording the last index whose upward-crossing
condition holds; the over-99 re-entry check runs in every iteration. -/
def getBuyLineIndex (c : GridCore) : Int :=
  (List.range c.NumberOfGrids.toNat).foldl
    (fun idx (x : ℕ) =>
      let lineVal := getGridValue c (Int.ofNat x)
      let idx :=
        if c.lastRsiValue < lineVal ∧ c.currentRsi ≥ lineVal ∧
            c.lastRsiValue ≤ c.signalLine then Int.ofNat x else idx
      if c.lastRsiValue > 99 ∧ c.currentRsi ≤ 99 then c.NumberOfGrids - 1
      else idx)
    0

/-- `getSellLineIndex` (lines 260-274): mirrored downward scan; the under-1
re-entry check forces index 0. -/
def getSellLineIndex (c : GridCore) : Int :=
  (List.range c.NumberOfGrids.toNat).foldl
    (fun idx (x : ℕ) =>
      let lineVal := getGridValue c (Int.ofNat x)
      let idx :=
        if c.lastRsiValue > lineVal ∧ c.currentRsi ≤ lineVal ∧
            c.lastRsiValue ≥ c.signalLine then Int.ofNat x else idx
      if c.lastRsiValue < 1 ∧ c.currentRsi ≥ 1 then 0
      else idx)
    0

/-- `applyAggressionFilter` (lines 281-308). -/
def applyAggressionFilter (c : GridCore) : GridCore :=
  let gi : ℚ := 100 / ((c.NumberOfGrids : ℚ) - 1)
  if c.AggressionLevel > 0 then
    let topIdx := (c.NumberOfGrids - 1) - c.AggressionLevel
    let botIdx := 1 + c.AggressionLevel
    let topVal := getGridValue c topIdx
    let botVal := getGridValue c botIdx
    let c :=
      if c.currentRsi > c.signalLine ∧ c.lastRsiValue ≥ botVal then
        { c with buy := false } else c
    if c.currentRsi < c.signalLine ∧ c.lastRsiValue ≤ topVal then
      { c with sell := false } else c
  else
    let c :=
      if c.lastRsiValue > c.signalLine - gi then { c with buy := false } else c
    if c.lastRsiValue < c.signalLine + gi then { c with sell := false } else c

/-- `applyNoTradeZoneFilter` (lines 310-318). -/
def applyNoTradeZoneFilter (c : GridCore) : GridCore :=
  let lowerBound : ℚ := 50 - (c.NoTradeZonePips : ℚ)
  let upperBound : ℚ := 50 + (c.NoTradeZonePips : ℚ)
  if c.lastRsiValue > lowerBound ∧ c.lastRsiValue < upperBound then
    { c with buy := false, sell := false }
  else c

/-- `applyDirectionFilter` (lines 320-331).  The guard
`currentRsi < 100 ∨ currentRsi > 1` is the source's literal condition. -/
def applyDirectionFilter (c : GridCore) : GridCore :=
  if c.currentRsi < 100 ∨ c.currentRsi > 1 then
    let gi : ℚ := 100 / ((c.NumberOfGrids : ℚ) - 1)
    let c :=
      if c.MarketDirection = DirDown ∧ c.currentRsi ≥ c.signalLine - 2 * gi
      then { c with buy := false } else c
    if c.MarketDirection = DirUp ∧ c.currentRsi ≤ c.signalLine + 2 * gi
    then { c with sell := false } else c
  else c

/-- Step 1 of `Process` (lines 173-178): run the configured indicator and
store its output in `currentRsi`. -/
def steadyEntry (c : GridCore) (price : ℚ) : GridCore :=
  let r := if c.CurrentRsiType = RsiTypeRSX then computeRSX c price
           else computeRSI c price
  let rsi := r.1
  let c0 := r.2
  { c0 with currentRsi := rsi }

/-- Steps 2-8 of `Process` (lines 190-235): crossing scan, the three
suppression filters in order, signal resolution, the unconditional
`signalLine = getGridValue(lastSignalIndex)` write, and the oscillator
memory update. -/
def processSteady (c : GridCore) : Signal × GridCore :=
  let c := { c with buy := false, sell := false }
  let buyIdx := getBuyLineIndex c
  let sellIdx := getSellLineIndex c
  let c := { c with buy := buyIdx > 0, sell := sellIdx > 0 }
  let c := applyAggressionFilter c
  let c := applyNoTradeZoneFilter c
  let c := applyDirectionFilter c
  let sig : Signal :=
    if c.buy then Signal.Buy
    else if c.sell then Signal.Sell
    else Signal.DoNothing
  let c :=
    if c.buy then { c with lastSignal := 1, lastSignalIndex := buyIdx }
    else if c.sell then { c with lastSignal := -1, lastSignalIndex := sellIdx }
    else c
  let c := { c with signalLine := getGridValue c c.lastSignalIndex }
  (sig, { c with lastRsiValue := c.currentRsi })

/-- `Process` (lines 170-236) on the numeric core.  The Go method also
returns an `error` that is always `nil`; we return the signal and the
post-call state.  The warm-up branch (lines 180-186) fires on the
`lastRsiValue == 0` sentinel. -/
def processCore (c : GridCore) (price : ℚ) : Signal × GridCore :=
  let c := steadyEntry c price
  if c.lastRsiValue = 0 then
    (Signal.DoNothing, { c with lastRsiValue := c.currentRsi })
  else processSteady c

/-- `GridManager.Process`: the core step; the stored logger is only a sink
for diagnostics in the source, so it is carried through untouched. -/
def GridManager.Process (gm : GridManager) (price : ℚ) : Signal × GridManager :=
  let r := processCore gm.core price
  (r.1, { core := r.2, log := gm.log })

/-- Feed an ordered price sequence through `Process`, collecting the emitted
signals and the final state. -/
def run (gm : GridManager) : List ℚ → List Signal × GridManager
  | [] => ([], gm)
  | p :: ps =>
      let r := gm.Process p
      let rest := run r.2 ps
      (r.1 :: rest.1, rest.2)

/-! ### Helper lemmas -/

lemma getGridValue_congr {c₁ c₂ : GridCore} (h : c₁.gridLines = c₂.gridLines)
    (idx : Int) : getGridValue c₁ idx = getGridValue c₂ idx := by
  simp [getGridValue, h]

/-- The aggression filter returns the input state with possibly lowered
buy/sell flags and touches nothing else. -/
lemma applyAggressionFilter_shape (c : GridCore) :
    ∃ b s : Bool, applyAggressionFilter c = { c with buy := b, sell := s } ∧
      (b = true → c.buy = true) ∧ (s = true → c.sell = true) := by
  simp only [applyAggressionFilter]
  split
  · split <;> split
    · exact ⟨false, false, rfl, by simp, by simp⟩
    · exact ⟨false, c.sell, rfl, by simp, fun h => h⟩
    · exact ⟨c.buy, false, rfl, fun h => h, by simp⟩
    · exact ⟨c.buy, c.sell, rfl, fun h => h, fun h => h⟩
  · split <;> split
    · exact ⟨false, false, rfl, by simp, by simp⟩
    · exact ⟨false, c.sell, rfl, by simp, fun h => h⟩
    · exact ⟨c.buy, false, rfl, fun h => h, by simp⟩
    · exact ⟨c.buy, c.sell, rfl, fun h => h, fun h => h⟩

/-- The no-trade-zone filter returns the input state with possibly lowered
buy/sell flags and touches nothing else. -/
lemma applyNoTradeZoneFilter_shape (c : GridCore) :
    ∃ b s : Bool, applyNoTradeZoneFilter c = { c with buy := b, sell := s } ∧
      (b = true → c.buy = true) ∧ (s = true → c.sell = true) := by
  simp only [applyNoTradeZoneFilter]
  split
  · exact ⟨false, false, rfl, by simp, by simp⟩
  · exact ⟨c.buy, c.sell, rfl, fun h => h, fun h => h⟩

/-- The direction filter returns the input state with possibly lowered
buy/sell flags and touches nothing else. -/
lemma applyDirectionFilter_shape (c : GridCore) :
    ∃ b s : Bool, applyDirectionFilter c = { c with buy := b, sell := s } ∧
      (b = true → c.buy = true) ∧ (s = true → c.sell = true) := by
  simp only [applyDirectionFilter]
  split
  · split <;> split
    · exact ⟨false, false, rfl, by simp, by simp⟩
    · exact ⟨false, c.sell, rfl, by simp, fun h => h⟩
    · exact ⟨c.buy, false, rfl, fun h => h, by simp⟩
    · exact ⟨c.buy, c.sell, rfl, fun h => h, fun h => h⟩
  · exact ⟨c.buy, c.sell, rfl, fun h => h, fun h => h⟩

/-- The whole pipeline, in source order. -/
lemma filterPipeline_shape (c : GridCore) :
    ∃ b s : Bool,
      applyDirectionFilter (applyNoTradeZoneFilter (applyAggressionFilter c)) =
        { c with buy := b, sell := s } ∧
      (b = true → c.buy = true) ∧ (s = true → c.sell = true) := by
  obtain ⟨b₁, s₁, h₁, hb₁, hs₁⟩ := applyAggressionFilter_shape c
  obtain ⟨b₂, s₂, h₂, hb₂, hs₂⟩ :=
    applyNoTradeZoneFilter_shape { c with buy := b₁, sell := s₁ }
  obtain ⟨b₃, s₃, h₃, hb₃, hs₃⟩ :=
    applyDirectionFilter_shape { { c with buy := b₁, sell := s₁ } with
      buy := b₂, sell := s₂ }
  refine ⟨b₃, s₃, ?_, ?_, ?_⟩
  · rw [h₁, h₂, h₃]
  · intro h
    exact hb₁ (hb₂ (hb₃ h))
  · intro h
    exact hs₁ (hs₂ (hs₃ h))

/-- `computeRSI` only writes `prevRawPrice`, `avgGain`, `avgLoss`: every
field the signal pipeline depends on is untouched. -/
lemma computeRSI_frame (c : GridCore) (p : ℚ) :
    (computeRSI c p).2.lastRsiValue = c.lastRsiValue ∧
    (computeRSI c p).2.lastSignal = c.lastSignal ∧
    (computeRSI c p).2.lastSignalIndex = c.lastSignalIndex ∧
    (computeRSI c p).2.signalLine = c.signalLine ∧
    (computeRSI c p).2.buy = c.buy ∧
    (computeRSI c p).2.sell = c.sell ∧
    (computeRSI c p).2.gridLines = c.gridLines ∧
    (computeRSI c p).2.NumberOfGrids = c.NumberOfGrids ∧
    (computeRSI c p).2.MarketDirection = c.MarketDirection ∧
    (computeRSI c p).2.NoTradeZonePips = c.NoTradeZonePips ∧
    (computeRSI c p).2.AggressionLevel = c.AggressionLevel ∧
    (computeRSI c p).2.CurrentRsiType = c.CurrentRsiType ∧
    (computeRSI c p).2.RsiLength = c.RsiLength := by
  simp only [computeRSI]
  repeat' split
  all_goals simp

/-- `computeRSX` only writes the cascade accumulators `f…`: every field the
signal pipeline depends on is untouched. -/
lemma computeRSX_frame (c : GridCore) (p : ℚ) :
    (computeRSX c p).2.lastRsiValue = c.lastRsiValue ∧
    (computeRSX c p).2.lastSignal = c.lastSignal ∧
    (computeRSX c p).2.lastSignalIndex = c.lastSignalIndex ∧
    (computeRSX c p).2.signalLine = c.signalLine ∧
    (computeRSX c p).2.buy = c.buy ∧
    (computeRSX c p).2.sell = c.sell ∧
    (computeRSX c p).2.gridLines = c.gridLines ∧
    (computeRSX c p).2.NumberOfGrids = c.NumberOfGrids ∧
    (computeRSX c p).2.MarketDirection = c.MarketDirection ∧
    (computeRSX c p).2.NoTradeZonePips = c.NoTradeZonePips ∧
    (computeRSX c p).2.AggressionLevel = c.AggressionLevel ∧
    (computeRSX c p).2.CurrentRsiType = c.CurrentRsiType ∧
    (computeRSX c p).2.RsiLength = c.RsiLength := by
  simp only [computeRSX]
  repeat' split
  all_goals simp

/-- Running the indicator and storing `currentRsi` leaves the pipeline
fields of the state unchanged. -/
lemma steadyEntry_frame (c : GridCore) (p : ℚ) :
    (steadyEntry c p).lastRsiValue = c.lastRsiValue ∧
    (steadyEntry c p).lastSignal = c.lastSignal ∧
    (steadyEntry c p).lastSignalIndex = c.lastSignalIndex ∧
    (steadyEntry c p).signalLine = c.signalLine ∧
    (steadyEntry c p).buy = c.buy ∧
    (steadyEntry c p).sell = c.sell ∧
    (steadyEntry c p).gridLines = c.gridLines ∧
    (steadyEntry c p).NumberOfGrids = c.NumberOfGrids ∧
    (steadyEntry c p).MarketDirection = c.MarketDirection ∧
    (steadyEntry c p).NoTradeZonePips = c.NoTradeZonePips ∧
    (steadyEntry c p).AggressionLevel = c.AggressionLevel ∧
    (steadyEntry c p).CurrentRsiType = c.CurrentRsiType ∧
    (steadyEntry c p).RsiLength = c.RsiLength := by
  simp only [steadyEntry]
  split
  · simpa using computeRSX_frame c p
  · simpa using computeRSI_frame c p

/-- On the zero sentinel, `Process` takes the warm-up branch: DoNothing, and
only the oscillator memory is seeded. -/
lemma processCore_warm (c : GridCore) (p : ℚ) (h : c.lastRsiValue = 0) :
    (processCore c p).1 = Signal.DoNothing ∧
    (processCore c p).2.lastSignal = c.lastSignal ∧
    (processCore c p).2.lastSignalIndex = c.lastSignalIndex ∧
    (processCore c p).2.signalLine = c.signalLine ∧
    (processCore c p).2.buy = c.buy ∧
    (processCore c p).2.sell = c.sell := by
  obtain ⟨h1, h2, h3, h4, h5, h6, -⟩ := steadyEntry_frame c p
  have hc : (steadyEntry c p).lastRsiValue = 0 := by rw [h1, h]
  simp [processCore, hc, h2, h3, h4, h5, h6]

/-- Off the zero sentinel, `Process` is the steady-state pipeline applied to
the state holding the fresh oscillator value. -/
lemma processCore_steady (c : GridCore) (p : ℚ) (h : c.lastRsiValue ≠ 0) :
    processCore c p = processSteady (steadyEntry c p) := by
  obtain ⟨h1, -⟩ := steadyEntry_frame c p
  simp only [processCore, h1, h, if_false]

/-- The crossing scans ignore the buy/sell flags of their input. -/
lemma getBuyLineIndex_reset (c : GridCore) :
    getBuyLineIndex { c with buy := false, sell := false } =
      getBuyLineIndex c := rfl

lemma getSellLineIndex_reset (c : GridCore) :
    getSellLineIndex { c with buy := false, sell := false } =
      getSellLineIndex c := rfl

/-- A fold preserves any invariant its step function preserves. -/
lemma foldl_inv {α β : Type} (P : β → Prop) (f : β → α → β) (l : List α)
    (b : β) (hb : P b) (hstep : ∀ x ∈ l, ∀ y, P y → P (f y x)) :
    P (l.foldl f b) := by
  induction l generalizing b with
  | nil => exact hb
  | cons a l ih =>
      exact ih (f b a) (hstep a (by simp) b hb)
        (fun x hx y hy => hstep x (by simp [hx]) y hy)

/-- The buy-scan resolves to an index in `[0, NumberOfGrids)`. -/
lemma getBuyLineIndex_range (c : GridCore) (h : 1 ≤ c.NumberOfGrids) :
    0 ≤ getBuyLineIndex c ∧ getBuyLineIndex c < c.NumberOfGrids := by
  unfold getBuyLineIndex
  refine foldl_inv
    (fun idx => 0 ≤ idx ∧ idx < c.NumberOfGrids) _ _ _ ⟨le_refl 0, by omega⟩ ?_
  intro a ha b hb
  have ha' : a < c.NumberOfGrids.toNat := List.mem_range.mp ha
  dsimp only
  simp only [Int.ofNat_eq_coe]
  split
  · omega
  · split
    · omega
    · exact hb

/-- The sell-scan resolves to an index in `[0, NumberOfGrids)`. -/
lemma getSellLineIndex_range (c : GridCore) (h : 1 ≤ c.NumberOfGrids) :
    0 ≤ getSellLineIndex c ∧ getSellLineIndex c < c.NumberOfGrids := by
  unfold getSellLineIndex
  refine foldl_inv
    (fun idx => 0 ≤ idx ∧ idx < c.NumberOfGrids) _ _ _ ⟨le_refl 0, by omega⟩ ?_
  intro a ha b hb
  have ha' : a < c.NumberOfGrids.toNat := List.mem_range.mp ha
  dsimp only
  simp only [Int.ofNat_eq_coe]
  split
  · omega
  · split
    · omega
    · exact hb

/-- Line 228 runs unconditionally: after any steady-state step the signal
line equals the ladder value at the (new) last signal index. -/
lemma processSteady_signalLine (c : GridCore) :
    (processSteady c).2.signalLine =
      getGridValue (processSteady c).2 (processSteady c).2.lastSignalIndex := by
  simp only [processSteady]
  split
  · rfl
  · split
    · rfl
    · rfl

/-- A steady-state DoNothing leaves `lastSignal` and `lastSignalIndex`
unchanged, and rewrites `signalLine` to the ladder value at that index. -/
lemma processSteady_doNothing (c : GridCore)
    (h : (processSteady c).1 = Signal.DoNothing) :
    (processSteady c).2.lastSignal = c.lastSignal ∧
    (processSteady c).2.lastSignalIndex = c.lastSignalIndex ∧
    (processSteady c).2.signalLine = getGridValue c c.lastSignalIndex := by
  simp only [processSteady] at h ⊢
  obtain ⟨b, s, hf, hb, hs⟩ := filterPipeline_shape
    { c with buy := decide (0 < getBuyLineIndex c)
             sell := decide (0 < getSellLineIndex c) }
  rw [getBuyLineIndex_reset, getSellLineIndex_reset] at h ⊢
  rw [hf] at h ⊢
  cases b
  · cases s
    · simp [getGridValue]
    · simp at h
  · simp at h

/-- If the previous oscillator value lies strictly inside the no-trade band,
the steady-state step resolves to DoNothing. -/
lemma processSteady_ntz (c : GridCore)
    (h1 : 50 - (c.NoTradeZonePips : ℚ) < c.lastRsiValue)
    (h2 : c.lastRsiValue < 50 + (c.NoTradeZonePips : ℚ)) :
    (processSteady c).1 = Signal.DoNothing := by
  simp only [processSteady]
  obtain ⟨b, s, ha, -, -⟩ := applyAggressionFilter_shape
    { c with buy := decide (0 < getBuyLineIndex c)
             sell := decide (0 < getSellLineIndex c) }
  rw [getBuyLineIndex_reset, getSellLineIndex_reset]
  rw [ha]
  have hntz : applyNoTradeZoneFilter
      { c with buy := b, sell := s } =
      { c with buy := false, sell := false } := by
    simp only [applyNoTradeZoneFilter]
    rw [if_pos ⟨h1, h2⟩]
  rw [hntz]
  obtain ⟨b₃, s₃, hd, hb₃, hs₃⟩ := applyDirectionFilter_shape
    { c with buy := false, sell := false }
  rw [hd]
  cases b₃
  · cases s₃
    · rfl
    · simpa using hs₃ rfl
  · simpa using hb₃ rfl

/-- If neither scan resolves a positive index, the steady-state step
resolves to DoNothing: the filters cannot assert a flag. -/
lemma processSteady_noCross (c : GridCore)
    (h1 : getBuyLineIndex c ≤ 0) (h2 : getSellLineIndex c ≤ 0) :
    (processSteady c).1 = Signal.DoNothing := by
  simp only [processSteady]
  rw [getBuyLineIndex_reset, getSellLineIndex_reset]
  have e1 : decide (0 < getBuyLineIndex c) = false :=
    decide_eq_false (by omega)
  have e2 : decide (0 < getSellLineIndex c) = false :=
    decide_eq_false (by omega)
  rw [e1, e2]
  obtain ⟨b₃, s₃, hd, hb₃, hs₃⟩ := filterPipeline_shape
    { c with buy := false, sell := false }
  rw [hd]
  cases b₃
  · cases s₃
    · rfl
    · simpa using hs₃ rfl
  · simpa using hb₃ rfl

/- Batteries marks the `Rat` field operations `@[irreducible]`, which blocks
`decide` from evaluating concrete runs of the embedded program; re-open them
for kernel evaluation in the rest of this development. -/
attribute [local semireducible] Rat.add Rat.sub Rat.mul Rat.inv
  Rat.ofScientific

/-- The steady-state pipeline does not touch the current oscillator value. -/
lemma processSteady_currentRsi (c : GridCore) :
    (processSteady c).2.currentRsi = c.currentRsi := by
  simp only [processSteady]
  rw [getBuyLineIndex_reset, getSellLineIndex_reset]
  obtain ⟨b, s, hf, -, -⟩ := filterPipeline_shape
    { c with buy := decide (0 < getBuyLineIndex c)
             sell := decide (0 < getSellLineIndex c) }
  rw [hf]
  split
  · rfl
  · split <;> rfl

/-- After any `Process` call, `currentRsi` holds exactly the configured
indicator's output for this sample. -/
lemma processCore_currentRsi_rsx (c : GridCore) (p : ℚ)
    (ht : c.CurrentRsiType = RsiTypeRSX) :
    (processCore c p).2.currentRsi = (computeRSX c p).1 := by
  have hentry : (steadyEntry c p).currentRsi = (computeRSX c p).1 := by
    simp only [steadyEntry]
    rw [if_pos ht]
  by_cases h0 : c.lastRsiValue = 0
  · have hc : (steadyEntry c p).lastRsiValue = 0 := by
      rw [(steadyEntry_frame c p).1, h0]
    simp [processCore, hc, hentry]
  · rw [processCore_steady c p h0, processSteady_currentRsi, hentry]

/-- C5: with the RSX variant every call whose warm-up progress counter
(`f90`) is still at or below the threshold `f88 = max(period−1, 5)` yields
exactly 50; a non-50 value forces progress past the threshold and a
positive unsigned momentum `v20`, and then equals `(v14/v20 + 1)·50`
clamped to `[0,100]`.  The first conjunct ties the seeded threshold to
`max(period−1, 5)`; the last ties `Process`'s stored oscillator value to
`computeRSX`. -/
theorem c5_rsx_warmup (c : GridCore) (p : ℚ) :
    (rsxThreshold c.RsiLength = max ((c.RsiLength : ℚ) - 1) 5) ∧
    (c.f8 = 0 ∧ c.f10 = 0 →
      (computeRSX c p).1 = 50 ∧
      (computeRSX c p).2.f88 = rsxThreshold c.RsiLength ∧
      (computeRSX c p).2.f90u = 1) ∧
    ((computeRSX c p).2.f90 ≤ (computeRSX c p).2.f88 →
      (computeRSX c p).1 = 50) ∧
    ((computeRSX c p).1 ≠ 50 →
      (computeRSX c p).2.f88 < (computeRSX c p).2.f90 ∧
      (computeRSXvals c p).v20 > 0 ∧
      (computeRSX c p).1 =
        clamp (((computeRSXvals c p).v14 / (computeRSXvals c p).v20 + 1) * 50)
          0 100) ∧
    (c.CurrentRsiType = RsiTypeRSX →
      (processCore c p).2.currentRsi = (computeRSX c p).1) := by
  refine ⟨?_, ?_, ?_, ?_, processCore_currentRsi_rsx c p⟩
  · simp only [rsxThreshold]
    split <;> rename_i h
    · exact (max_eq_right (le_of_lt h)).symm
    · exact (max_eq_left (not_lt.mp h)).symm
  · intro hf
    refine ⟨?_, ?_, ?_⟩ <;> (simp only [computeRSX]; rw [if_pos hf])
  · intro hle
    rcases Decidable.em (c.f8 = 0 ∧ c.f10 = 0) with hf | hf
    · simp only [computeRSX]
      rw [if_pos hf]
    · have hval : (computeRSX c p).1 =
          clamp (if rsxF88 c < rsxF90 c p ∧ (computeRSXvals c p).v20 > 0 then
              ((computeRSXvals c p).v14 / (computeRSXvals c p).v20 + 1) * 50
            else 50) 0 100 := by
        simp only [computeRSX]
        rw [if_neg hf]
      have h88 : (computeRSX c p).2.f88 = rsxF88 c := by
        simp only [computeRSX]
        rw [if_neg hf]
      have h90 : (computeRSX c p).2.f90 = rsxF90 c p := by
        simp only [computeRSX]
        rw [if_neg hf]
      rw [h88, h90] at hle
      rw [hval, if_neg (fun hc => absurd hc.1 (not_lt.mpr hle))]
      norm_num [clamp]
  · intro hne
    rcases Decidable.em (c.f8 = 0 ∧ c.f10 = 0) with hf | hf
    · exact absurd (by simp only [computeRSX]; rw [if_pos hf]) hne
    · have hval : (computeRSX c p).1 =
          clamp (if rsxF88 c < rsxF90 c p ∧ (computeRSXvals c p).v20 > 0 then
              ((computeRSXvals c p).v14 / (computeRSXvals c p).v20 + 1) * 50
            else 50) 0 100 := by
        simp only [computeRSX]
        rw [if_neg hf]
      have h88 : (computeRSX c p).2.f88 = rsxF88 c := by
        simp only [computeRSX]
        rw [if_neg hf]
      have h90 : (computeRSX c p).2.f90 = rsxF90 c p := by
        simp only [computeRSX]
        rw [if_neg hf]
      by_cases hcond :
          rsxF88 c < rsxF90 c p ∧ (computeRSXvals c p).v20 > 0
      · rw [h88, h90]
        refine ⟨hcond.1, hcond.2, ?_⟩
        rw [hval, if_pos hcond]
      · exfalso
        apply hne
        rw [hval, if_neg hcond]
        norm_num [clamp]

/-- C5 witness: a freshly constructed RSX instance (period 7) returns 50 for
its first sample, with progress still below the threshold. -/
theorem c5_rsx_warmup_witness :
    (computeRSX (NewGridManager 7 10 "neutral" "n/a" "low" "rsx" 0).core
        100).1 = 50 := by
  refine ((c5_rsx_warmup
      (NewGridManager 7 10 "neutral" "n/a" "low" "rsx" 0).core 100).2.1
    (by decide)).1

/-- C6: for the classic-RSI variant on any non-first sample, a zero updated
average loss yields exactly 100, and the `avgGain/avgLoss` division is only
ever evaluated under a non-zero divisor. -/
theorem c6_rsi_zero_loss (c : GridCore) (p : ℚ) (h : c.prevRawPrice ≠ 0) :
    ((computeRSI c p).2.avgLoss = 0 → (computeRSI c p).1 = 100) ∧
    ((computeRSI c p).2.avgLoss ≠ 0 →
      (computeRSI c p).1 =
        clamp (100 - 100 / (1 +
          (computeRSI c p).2.avgGain / (computeRSI c p).2.avgLoss)) 0 100) := by
  simp only [computeRSI]
  rw [if_neg h]
  repeat' split
  all_goals
    exact ⟨fun hz => by first | rfl | (exfalso; simp_all),
           fun hnz => by first | rfl | (exfalso; simp_all)⟩

/-- C6 witness: from previous price 100 with a gain to 101 the seeded
average loss is 0 and the oscillator value is exactly 100. -/
theorem c6_rsi_zero_loss_witness :
    (computeRSI
      { (NewGridManager 14 10 "neutral" "n/a" "low" "rsi" 0).core with
        prevRawPrice := 100 } 101).1 = 100 := by
  refine (c6_rsi_zero_loss
      { (NewGridManager 14 10 "neutral" "n/a" "low" "rsi" 0).core with
        prevRawPrice := 100 } 101 (by decide)).1 (by decide)

/-- C7: each of the three suppression filters can only clear the buy/sell
flags, never set one; hence flags entering the pipeline as (false, false)
leave it as (false, false), and a steady-state sample with no positive
crossing index resolves to DoNothing. -/
theorem c7_filters_only_clear (c : GridCore) :
    ((applyAggressionFilter c).buy = true → c.buy = true) ∧
    ((applyAggressionFilter c).sell = true → c.sell = true) ∧
    ((applyNoTradeZoneFilter c).buy = true → c.buy = true) ∧
    ((applyNoTradeZoneFilter c).sell = true → c.sell = true) ∧
    ((applyDirectionFilter c).buy = true → c.buy = true) ∧
    ((applyDirectionFilter c).sell = true → c.sell = true) ∧
    (c.buy = false → c.sell = false →
      (applyDirectionFilter (applyNoTradeZoneFilter
        (applyAggressionFilter c))).buy = false ∧
      (applyDirectionFilter (applyNoTradeZoneFilter
        (applyAggressionFilter c))).sell = false) ∧
    (getBuyLineIndex c ≤ 0 → getSellLineIndex c ≤ 0 →
      (processSteady c).1 = Signal.DoNothing) := by
  obtain ⟨b₁, s₁, h₁, hb₁, hs₁⟩ := applyAggressionFilter_shape c
  obtain ⟨b₂, s₂, h₂, hb₂, hs₂⟩ := applyNoTradeZoneFilter_shape c
  obtain ⟨b₃, s₃, h₃, hb₃, hs₃⟩ := applyDirectionFilter_shape c
  obtain ⟨b₄, s₄, h₄, hb₄, hs₄⟩ := filterPipeline_shape c
  refine ⟨?_, ?_, ?_, ?_, ?_, ?_, ?_, processSteady_noCross c⟩
  · rw [h₁]
    exact hb₁
  · rw [h₁]
    exact hs₁
  · rw [h₂]
    exact hb₂
  · rw [h₂]
    exact hs₂
  · rw [h₃]
    exact hb₃
  · rw [h₃]
    exact hs₃
  · intro hbuy hsell
    rw [h₄]
    constructor
    · cases b₄
      · rfl
      · exact absurd (hb₄ rfl) (by simp [hbuy])
    · cases s₄
      · rfl
      · exact absurd (hs₄ rfl) (by simp [hsell])

/-- C7 witness: on a freshly constructed core neither scan finds a positive
index, and the steady-state step resolves to DoNothing. -/
theorem c7_filters_only_clear_witness :
    (processSteady
      (NewGridManager 2 10 "neutral" "n/a" "low" "rsi" 0).core).1 =
      Signal.DoNothing := by
  exact (c7_filters_only_clear
      (NewGridManager 2 10 "neutral" "n/a" "low" "rsi" 0).core).2.2.2.2.2.2.2
    (by decide) (by decide)

/-- C8: whenever the previous oscillator value lies strictly inside
`(50−ntz, 50+ntz)` the no-trade-zone filter clears both flags; in
particular, with width 15 and previous value 55 any `Process` call returns
DoNothing, whatever crossing this sample produced. -/
theorem c8_no_trade_zone (c : GridCore) (p : ℚ) :
    (50 - (c.NoTradeZonePips : ℚ) < c.lastRsiValue →
      c.lastRsiValue < 50 + (c.NoTradeZonePips : ℚ) →
      (applyNoTradeZoneFilter c).buy = false ∧
      (applyNoTradeZoneFilter c).sell = false) ∧
    (c.NoTradeZonePips = 15 → c.lastRsiValue = 55 →
      (processCore c p).1 = Signal.DoNothing) := by
  constructor
  · intro h1 h2
    simp only [applyNoTradeZoneFilter]
    rw [if_pos ⟨h1, h2⟩]
    exact ⟨rfl, rfl⟩
  · intro hz h55
    have hne : c.lastRsiValue ≠ 0 := by
      rw [h55]
      norm_num
    rw [processCore_steady c p hne]
    obtain ⟨e1, -, -, -, -, -, -, -, -, e10, -, -, -⟩ := steadyEntry_frame c p
    refine processSteady_ntz _ ?_ ?_
    · rw [e1, e10, h55, hz]
      norm_num
    · rw [e1, e10, h55, hz]
      norm_num

/-- C8 witness: a core configured with the 35-65 band whose previous
oscillator value is 55 returns DoNothing. -/
theorem c8_no_trade_zone_witness :
    (processCore
      { (NewGridManager 2 10 "neutral" "35-65" "low" "rsi" 0).core with
        lastRsiValue := 55 } 42).1 = Signal.DoNothing := by
  exact (c8_no_trade_zone
      { (NewGridManager 2 10 "neutral" "35-65" "low" "rsi" 0).core with
        lastRsiValue := 55 } 42).2 (by decide) (by decide)

/-- One `Process` step in terms of the numeric core: the stored logger
handle is carried through unread. -/
lemma Process_log (core : GridCore) (l : Nat) (p : ℚ) :
    GridManager.Process ⟨core, l⟩ p =
      ((processCore core p).1, ⟨(processCore core p).2, l⟩) := rfl

/-- Signals and final numeric state of a replay depend only on the numeric
core, never on the logger handle. -/
lemma run_log (ps : List ℚ) : ∀ (core : GridCore) (l₁ l₂ : Nat),
    (run ⟨core, l₁⟩ ps).1 = (run ⟨core, l₂⟩ ps).1 ∧
    (run ⟨core, l₁⟩ ps).2.core = (run ⟨core, l₂⟩ ps).2.core := by
  induction ps with
  | nil => exact fun core l₁ l₂ => ⟨rfl, rfl⟩
  | cons p ps ih =>
      intro core l₁ l₂
      simp only [run, Process_log]
      obtain ⟨ih1, ih2⟩ := ih (processCore core p).2 l₁ l₂
      exact ⟨by rw [ih1], ih2⟩

/-- C9: `Process` is deterministic and logger-blind — two freshly
constructed instances with the same configuration, fed the same ordered
price sequence, emit identical signal sequences and identical numeric
states after every call, whatever logger handles were supplied. -/
theorem c9_determinism (rl g : Int) (d nt ag t : String) (l₁ l₂ : Nat)
    (ps : List ℚ) :
    (run (NewGridManager rl g d nt ag t l₁) ps).1 =
      (run (NewGridManager rl g d nt ag t l₂) ps).1 ∧
    (run (NewGridManager rl g d nt ag t l₁) ps).2.core =
      (run (NewGridManager rl g d nt ag t l₂) ps).2.core := by
  have e₁ : NewGridManager rl g d nt ag t l₁ =
      ⟨(NewGridManager rl g d nt ag t l₁).core, l₁⟩ := rfl
  have e₂ : NewGridManager rl g d nt ag t l₂ =
      ⟨(NewGridManager rl g d nt ag t l₁).core, l₂⟩ := rfl
  rw [e₁, e₂]
  exact run_log ps (NewGridManager rl g d nt ag t l₁).core l₁ l₂

/-- The steady-state pipeline does not touch the ladder. -/
lemma processSteady_gridLines (c : GridCore) :
    (processSteady c).2.gridLines = c.gridLines := by
  simp only [processSteady]
  rw [getBuyLineIndex_reset, getSellLineIndex_reset]
  obtain ⟨b, s, hf, -, -⟩ := filterPipeline_shape
    { c with buy := decide (0 < getBuyLineIndex c)
             sell := decide (0 < getSellLineIndex c) }
  rw [hf]
  split
  · rfl
  · split <;> rfl

/-- After a steady-state step, the last signal index is the old one or one
of this sample's two scan results. -/
lemma processSteady_lastSignalIndex (c : GridCore) :
    (processSteady c).2.lastSignalIndex = c.lastSignalIndex ∨
    (processSteady c).2.lastSignalIndex = getBuyLineIndex c ∨
    (processSteady c).2.lastSignalIndex = getSellLineIndex c := by
  simp only [processSteady]
  rw [getBuyLineIndex_reset, getSellLineIndex_reset]
  obtain ⟨b, s, hf, -, -⟩ := filterPipeline_shape
    { c with buy := decide (0 < getBuyLineIndex c)
             sell := decide (0 < getSellLineIndex c) }
  rw [hf]
  split
  · exact Or.inr (Or.inl rfl)
  · split
    · exact Or.inr (Or.inr rfl)
    · exact Or.inl rfl

/-- C10: after every `Process` call that passes the warm-up branch, the
signal line equals the ladder value at the current last signal index
(line 228 runs unconditionally, even on DoNothing); the ladder itself is
unchanged and the index stays inside `[0, NumberOfGrids)`. -/
theorem c10_signal_line_invariant (c : GridCore) (p : ℚ)
    (h : c.lastRsiValue ≠ 0) :
    (processCore c p).2.signalLine =
      getGridValue (processCore c p).2
        ((processCore c p).2.lastSignalIndex) ∧
    (processCore c p).2.gridLines = c.gridLines ∧
    (1 ≤ c.NumberOfGrids → 0 ≤ c.lastSignalIndex →
      c.lastSignalIndex < c.NumberOfGrids →
      0 ≤ (processCore c p).2.lastSignalIndex ∧
      (processCore c p).2.lastSignalIndex < c.NumberOfGrids) := by
  rw [processCore_steady c p h]
  obtain ⟨-, -, e3, -, -, -, e7, e8, -, -, -, -, -⟩ := steadyEntry_frame c p
  refine ⟨processSteady_signalLine _, ?_, ?_⟩
  · rw [processSteady_gridLines, e7]
  · intro hn h0 hlt
    have hn' : 1 ≤ (steadyEntry c p).NumberOfGrids := by rw [e8]; exact hn
    rcases processSteady_lastSignalIndex (steadyEntry c p) with hi | hi | hi
    · rw [hi, e3]
      exact ⟨h0, hlt⟩
    · rw [hi]
      have := getBuyLineIndex_range (steadyEntry c p) hn'
      rw [e8] at this
      exact this
    · rw [hi]
      have := getSellLineIndex_range (steadyEntry c p) hn'
      rw [e8] at this
      exact this

/-- C10 witness: on the second sample of a fresh neutral instance the call
is steady-state and DoNothing, yet the signal line is rewritten from its
initial 50 to the ladder value at index 0, namely 1. -/
theorem c10_signal_line_invariant_witness :
    ((processCore
        (run (NewGridManager 2 10 "neutral" "n/a" "low" "rsi" 0)
          [100]).2.core 101).2.signalLine =
      getGridValue
        (processCore
          (run (NewGridManager 2 10 "neutral" "n/a" "low" "rsi" 0)
            [100]).2.core 101).2
        ((processCore
          (run (NewGridManager 2 10 "neutral" "n/a" "low" "rsi" 0)
            [100]).2.core 101).2.lastSignalIndex)) ∧
    (processCore
        (run (NewGridManager 2 10 "neutral" "n/a" "low" "rsi" 0)
          [100]).2.core 101).2.signalLine = 1 := by
  exact ⟨(c10_signal_line_invariant
      (run (NewGridManager 2 10 "neutral" "n/a" "low" "rsi" 0)
        [100]).2.core 101 (by decide)).1, by decide⟩

/-- C1 counterexample: on a fresh neutral instance (`signalLine = 50`,
`lastSignalIndex = 0`) the second sample is steady-state and returns
DoNothing, yet the signal line comes out 1 (= ladder[0]), not 50: line 228
recomputes it on every steady-state call, DoNothing included. -/
theorem c1_counterexample :
    ((run (NewGridManager 2 10 "neutral" "n/a" "low" "rsi" 0)
        [100]).2.core.signalLine = 50) ∧
    ((run (NewGridManager 2 10 "neutral" "n/a" "low" "rsi" 0)
        [100]).2.core.lastSignalIndex = 0) ∧
    ((run (NewGridManager 2 10 "neutral" "n/a" "low" "rsi" 0)
        [100]).2.core.lastRsiValue ≠ 0) ∧
    ((run (NewGridManager 2 10 "neutral" "n/a" "low" "rsi" 0)
        [100, 101]).1 = [Signal.DoNothing, Signal.DoNothing]) ∧
    ((run (NewGridManager 2 10 "neutral" "n/a" "low" "rsi" 0)
        [100, 101]).2.core.signalLine = 1) := by
  decide

/-- C1 (amended): on a steady-state call returning DoNothing, the last
signal and last signal index are unchanged, and the signal line is
recomputed as the ladder value at that (unchanged) index — so it is
preserved only when it already equals that ladder value; the initial 50 at
index 0 becomes ladder[0] = 1. -/
theorem c1_amended (c : GridCore) (p : ℚ) (h : c.lastRsiValue ≠ 0)
    (hdn : (processCore c p).1 = Signal.DoNothing) :
    (processCore c p).2.lastSignal = c.lastSignal ∧
    (processCore c p).2.lastSignalIndex = c.lastSignalIndex ∧
    (processCore c p).2.signalLine = getGridValue c c.lastSignalIndex := by
  rw [processCore_steady c p h] at hdn ⊢
  obtain ⟨-, e2, e3, -, -, -, e7, -, -, -, -, -, -⟩ := steadyEntry_frame c p
  obtain ⟨d1, d2, d3⟩ := processSteady_doNothing (steadyEntry c p) hdn
  refine ⟨by rw [d1, e2], by rw [d2, e3], ?_⟩
  rw [d3, e3, getGridValue_congr e7]

/-- C1 amended witness: the concrete DoNothing step of the counterexample,
with `lastSignal`/`lastSignalIndex` preserved and the signal line set to
the ladder value at index 0. -/
theorem c1_amended_witness :
    (processCore
        (run (NewGridManager 2 10 "neutral" "n/a" "low" "rsi" 0)
          [100]).2.core 101).2.lastSignal =
      (run (NewGridManager 2 10 "neutral" "n/a" "low" "rsi" 0)
        [100]).2.core.lastSignal ∧
    (processCore
        (run (NewGridManager 2 10 "neutral" "n/a" "low" "rsi" 0)
          [100]).2.core 101).2.lastSignalIndex =
      (run (NewGridManager 2 10 "neutral" "n/a" "low" "rsi" 0)
        [100]).2.core.lastSignalIndex ∧
    (processCore
        (run (NewGridManager 2 10 "neutral" "n/a" "low" "rsi" 0)
          [100]).2.core 101).2.signalLine =
      getGridValue
        (run (NewGridManager 2 10 "neutral" "n/a" "low" "rsi" 0)
          [100]).2.core
        (run (NewGridManager 2 10 "neutral" "n/a" "low" "rsi" 0)
          [100]).2.core.lastSignalIndex := by
  exact c1_amended
    (run (NewGridManager 2 10 "neutral" "n/a" "low" "rsi" 0) [100]).2.core
    101 (by decide) (by decide)

/-- C2 counterexample: with the classic RSI an all-loss bar drives the
oscillator to exactly 0, the warm-up sentinel value — after prices
[100, 99] the stored previous oscillator value is 0 again, so the third
call re-enters the warm-up branch (the `lastRsiValue == 0` test at
line 180) and returns DoNothing regardless of its price. -/
theorem c2_counterexample :
    ((run (NewGridManager 2 10 "neutral" "n/a" "med" "rsi" 0)
        [100, 99]).1 = [Signal.DoNothing, Signal.DoNothing]) ∧
    ((run (NewGridManager 2 10 "neutral" "n/a" "med" "rsi" 0)
        [100, 99]).2.core.lastRsiValue = 0) ∧
    (((run (NewGridManager 2 10 "neutral" "n/a" "med" "rsi" 0)
        [100, 99]).2.Process 150).1 = Signal.DoNothing) := by
  decide

/-- C2 (amended): the first call on a fresh instance always returns
DoNothing; but the warm-up branch is keyed to the `lastRsiValue = 0`
sentinel, not to being the first call — any call finding the sentinel
(which a legitimate oscillator value of exactly 0 recreates) takes the
warm-up branch again: it returns DoNothing and leaves all signal state
(last signal, index, signal line, flags) untouched. -/
theorem c2_amended (rl g : Int) (d nt ag t : String) (l : Nat) (p : ℚ)
    (c : GridCore) (q : ℚ) (h : c.lastRsiValue = 0) :
    ((NewGridManager rl g d nt ag t l).Process p).1 = Signal.DoNothing ∧
    (processCore c q).1 = Signal.DoNothing ∧
    (processCore c q).2.lastSignal = c.lastSignal ∧
    (processCore c q).2.lastSignalIndex = c.lastSignalIndex ∧
    (processCore c q).2.signalLine = c.signalLine ∧
    (processCore c q).2.buy = c.buy ∧
    (processCore c q).2.sell = c.sell := by
  obtain ⟨w1, w2, w3, w4, w5, w6⟩ := processCore_warm c q h
  exact ⟨(processCore_warm (NewGridManager rl g d nt ag t l).core p rfl).1,
    w1, w2, w3, w4, w5, w6⟩

/-- C2 amended witness: the third call of the counterexample run applies
the warm-up branch again. -/
theorem c2_amended_witness :
    (processCore
        (run (NewGridManager 2 10 "neutral" "n/a" "med" "rsi" 0)
          [100, 99]).2.core 150).1 = Signal.DoNothing := by
  exact (c2_amended 2 10 "neutral" "n/a" "med" "rsi" 0 100
    (run (NewGridManager 2 10 "neutral" "n/a" "med" "rsi" 0)
      [100, 99]).2.core 150 (by decide)).2.1

/-- C3 counterexample: a bias=Down configuration that emits Buy.  After a
Sell at the top ladder line sets `signalLine = 99`, an upward crossing far
below the signal line (current ≈ 30 < 99 − 2·10) survives every filter,
including the direction filter, and `Process` returns Buy on the fifth
sample. -/
theorem c3_counterexample :
    ((NewGridManager 2 10 "down" "n/a" "low" "rsi" 0).core.MarketDirection
      = DirDown) ∧
    ((run (NewGridManager 2 10 "down" "n/a" "low" "rsi" 0)
        [100, 101, 100, 90, 92]).1 =
      [Signal.DoNothing, Signal.DoNothing, Signal.Sell, Signal.DoNothing,
        Signal.Buy]) := by
  decide

/-- C3 (amended): the direction filter guarantees only this much — with
bias=Down it clears buy whenever `current ≥ signalLine − 2·gi` (so a Buy
can still be emitted when the oscillator is far below the signal line),
with bias=Up it clears sell whenever `current ≤ signalLine + 2·gi`, and
with bias=Neutral it changes nothing. -/
theorem c3_amended (c : GridCore) :
    (c.MarketDirection = DirDown →
      c.currentRsi ≥ c.signalLine - 2 * (100 / ((c.NumberOfGrids : ℚ) - 1)) →
      (applyDirectionFilter c).buy = false) ∧
    (c.MarketDirection = DirUp →
      c.currentRsi ≤ c.signalLine + 2 * (100 / ((c.NumberOfGrids : ℚ) - 1)) →
      (applyDirectionFilter c).sell = false) ∧
    (c.MarketDirection = DirNeutral → applyDirectionFilter c = c) := by
  have hguard : c.currentRsi < 100 ∨ c.currentRsi > 1 := by
    rcases lt_or_le c.currentRsi 100 with h | h
    · exact Or.inl h
    · exact Or.inr (lt_of_lt_of_le (by norm_num) h)
  refine ⟨?_, ?_, ?_⟩
  · intro hdir hcross
    simp only [applyDirectionFilter]
    rw [if_pos hguard]
    split
    · split
      · rfl
      · rfl
    · rename_i hno
      exact absurd ⟨hdir, hcross⟩ hno
  · intro hdir hcross
    simp only [applyDirectionFilter]
    rw [if_pos hguard]
    split
    · split
      · rfl
      · rename_i hno
        exact absurd ⟨hdir, hcross⟩ hno
    · split
      · rfl
      · rename_i hno
        exact absurd ⟨hdir, hcross⟩ hno
  · intro hdir
    simp only [applyDirectionFilter]
    rw [if_pos hguard]
    split
    · rename_i hyes
      exact absurd (hdir.symm.trans hyes.1) (by decide)
    · split
      · rename_i hup
        exact absurd (hdir.symm.trans hup.1) (by decide)
      · rfl

/-- C3 amended witness: with bias=Down and the oscillator at the signal
line, the direction filter clears a pending buy flag. -/
theorem c3_amended_witness :
    (applyDirectionFilter
      { (NewGridManager 2 10 "down" "n/a" "low" "rsi" 0).core with
        currentRsi := 50, signalLine := 50, buy := true }).buy = false := by
  exact (c3_amended
    { (NewGridManager 2 10 "down" "n/a" "low" "rsi" 0).core with
      currentRsi := 50, signalLine := 50, buy := true }).1
    (by decide) (by decide)

lemma initGridLines_length (n : Int) (h : 2 ≤ n) :
    (initGridLines n).length = n.toNat := by
  simp only [initGridLines]
  rw [if_neg (by omega)]
  simp

lemma initGridLines_getD (n : Int) (h : 2 ≤ n) (i : ℕ) (hi : i < n.toNat) :
    (initGridLines n).getD i 0 =
      if i = 0 then 1
      else if i = n.toNat - 1 then 99
      else (100 / ((n : ℚ) - 1)) * i := by
  simp only [initGridLines]
  rw [if_neg (by omega)]
  rw [List.getD_eq_getElem _ _ (by simpa using hi)]
  rw [List.getElem_set, List.getElem_set, List.getElem_ofFn]
  by_cases h0 : i = 0
  · have hne : n.toNat - 1 ≠ 0 := by omega
    simp [h0, hne]
  · by_cases h1 : i = n.toNat - 1
    · have hne : n.toNat - 1 ≠ 0 := by omega
      simp [h1, hne]
    · have h1' : n.toNat - 1 ≠ i := fun hh => h1 hh.symm
      have h0' : (0 : ℕ) ≠ i := fun hh => h0 hh.symm
      simp [h0, h1, h0', h1']

/-- C4 counterexample: with 101 configured grids the ladder is not
non-decreasing — `ladder[1] = 100/101 < 1 = ladder[0]` (the endpoint
override writes 1 over the computed 0, passing the second entry). -/
theorem c4_counterexample :
    ((NewGridManager 14 101 "neutral" "n/a" "low" "rsi" 0).core.gridLines.length
      = 102) ∧
    ((NewGridManager 14 101 "neutral" "n/a" "low" "rsi"
        0).core.gridLines.getD 0 0 = 1) ∧
    ((NewGridManager 14 101 "neutral" "n/a" "low" "rsi"
        0).core.gridLines.getD 1 0 = 100 / 101) ∧
    ((NewGridManager 14 101 "neutral" "n/a" "low" "rsi"
        0).core.gridLines.getD 1 0 <
      (NewGridManager 14 101 "neutral" "n/a" "low" "rsi"
        0).core.gridLines.getD 0 0) := by
  decide

/-- C4 (amended): for every configured grid count g ≥ 1 the ladder has
length g+1 with first entry 1 and last entry 99; it is non-decreasing for
g ≤ 100, but for g ≥ 101 the interior spacing 100/g drops below the
overridden first entry 1, so monotonicity fails there. -/
theorem c4_amended (rl g : Int) (d nt ag t : String) (l : Nat)
    (h : 1 ≤ g) :
    (NewGridManager rl g d nt ag t l).core.gridLines =
      initGridLines (g + 1) ∧
    ((initGridLines (g + 1)).length : Int) = g + 1 ∧
    (initGridLines (g + 1)).getD 0 0 = 1 ∧
    (initGridLines (g + 1)).getD ((initGridLines (g + 1)).length - 1) 0
      = 99 ∧
    (g ≤ 100 → (initGridLines (g + 1)).Chain' (· ≤ ·)) := by
  have h2 : 2 ≤ g + 1 := by omega
  have hlen := initGridLines_length (g + 1) h2
  have hN : 2 ≤ (g + 1).toNat := by omega
  refine ⟨rfl, ?_, ?_, ?_, ?_⟩
  · rw [hlen]
    omega
  · rw [initGridLines_getD (g + 1) h2 0 (by omega)]
    simp
  · rw [hlen, initGridLines_getD (g + 1) h2 ((g + 1).toNat - 1) (by omega)]
    have : (g + 1).toNat - 1 ≠ 0 := by omega
    simp [this]
  · intro hg100
    have hgq : (1 : ℚ) ≤ (g : ℚ) := by exact_mod_cast h
    have hgq100 : (g : ℚ) ≤ 100 := by exact_mod_cast hg100
    have hg0 : (0 : ℚ) < (g : ℚ) := by linarith
    have hden : ((g + 1 : ℤ) : ℚ) - 1 = (g : ℚ) := by
      push_cast
      ring
    rw [List.chain'_iff_get]
    intro i hi
    rw [hlen] at hi
    have hi1 : i < (g + 1).toNat - 1 := hi
    rw [List.get_eq_getElem, List.get_eq_getElem,
      ← List.getD_eq_getElem _ (0 : ℚ), ← List.getD_eq_getElem _ (0 : ℚ),
      initGridLines_getD (g + 1) h2 i (by omega),
      initGridLines_getD (g + 1) h2 (i + 1) (by omega)]
    have hstep : (0 : ℚ) ≤ 100 / (((g + 1 : ℤ) : ℚ) - 1) := by
      rw [hden]
      positivity
    have hsucc0 : i + 1 ≠ 0 := by omega
    by_cases h0 : i = 0
    · subst h0
      have e0 : (0 : ℕ) = 0 := rfl
      rw [if_pos e0, if_neg hsucc0]
      by_cases hlast : 0 + 1 = (g + 1).toNat - 1
      · rw [if_pos hlast]
        norm_num
      · rw [if_neg hlast, hden]
        have h1g : (1 : ℚ) ≤ 100 / (g : ℚ) := by
          rw [le_div_iff₀ hg0]
          linarith
        simpa using h1g
    · have hiN : i ≠ (g + 1).toNat - 1 := by omega
      rw [if_neg h0, if_neg hiN, if_neg hsucc0]
      by_cases hlast : i + 1 = (g + 1).toNat - 1
      · rw [if_pos hlast]
        have hiq : (i : ℚ) = (g : ℚ) - 1 := by
          have hz : (i : ℤ) = g - 1 := by omega
          exact_mod_cast hz
        rw [hden, hiq, div_mul_eq_mul_div, div_le_iff₀ hg0]
        nlinarith
      · rw [if_neg hlast]
        have hmono : (i : ℚ) ≤ (i : ℚ) + 1 := by linarith
        have hmul := mul_le_mul_of_nonneg_left hmono hstep
        push_cast
        push_cast at hmul
        linarith

/-- C4 amended witness: the ladder for the default 10 grids — length 11,
endpoints 1 and 99, non-decreasing. -/
theorem c4_amended_witness :
    ((initGridLines (10 + 1)).length : Int) = 10 + 1 ∧
    (initGridLines (10 + 1)).getD 0 0 = 1 ∧
    (initGridLines (10 + 1)).getD ((initGridLines (10 + 1)).length - 1) 0
      = 99 ∧
    (initGridLines (10 + 1)).Chain' (· ≤ ·) := by
  obtain ⟨-, h1, h2, h3, h4⟩ :=
    c4_amended 14 10 "neutral" "n/a" "low" "rsi" 0 (by norm_num)
  exact ⟨h1, h2, h3, h4 (by norm_num)⟩

end NinetyFive
